import Mathlib

/-!
Shallow embedding of the clinicsay-migrations engine:
the record sanitizer (src/utils/validators.js), the chunked transactional
loader (src/services/batch.service.js together with the transaction helper in
src/config/database.js), the paginated source reader (src/utils/api-client.js),
the AI reconciliation engine with its cache (src/services/ai-mapper.service.js),
and the secondary-appointment linking step of the POST /citas handler
(src/migrations/koibox/citas.js).

JavaScript values are modelled by the inductive `JsValue`; objects are
association lists of string keys in insertion order.  Asynchronous effects are
modelled by explicit state passing; the MySQL store and the HTTP source are
abstracted as function parameters, so theorems quantify over every possible
store/transport behaviour.
-/

/-- Model of a JavaScript (JSON-extended) value: `undefined` is `undefined`,
`nullv` is `null`; objects are association lists in insertion order. -/
inductive JsValue : Type
  | undefined : JsValue
  | nullv : JsValue
  | bool : Bool → JsValue
  | num : Int → JsValue
  | str : String → JsValue
  | arr : List JsValue → JsValue
  | obj : List (String × JsValue) → JsValue

/-- A record (row / appointment / API item): a JS object as association list. -/
abbrev JsRecord := List (String × JsValue)

/-- Whether a value is literally `undefined` (the JS `=== undefined` test). -/
def JsValue.isUndefined : JsValue → Bool
  | .undefined => true
  | _ => false

/-- Whether a value is literally `null`. -/
def JsValue.isNullv : JsValue → Bool
  | .nullv => true
  | _ => false

/-- The JS strict comparison `v === ''`. -/
def JsValue.isEmptyStr : JsValue → Bool
  | .str s => s == ""
  | _ => false

/-- JavaScript truthiness. -/
def truthy : JsValue → Bool
  | .undefined => false
  | .nullv => false
  | .bool b => b
  | .num n => !(n == 0)
  | .str s => !(s == "")
  | .arr _ => true
  | .obj _ => true

/-- Property access `v[k]` on a JS value: a missing key or a non-object base
yields `undefined` (base `null`/`undefined` would throw; callers in the model
handle that case explicitly where the source can reach it). -/
def getField (v : JsValue) (k : String) : JsValue :=
  match v with
  | .obj fields => (((fields.find? (fun kv => kv.1 == k)).map (fun kv => kv.2)).getD .undefined)
  | _ => .undefined

/-- Record field access `record[k]`, `undefined` when the key is absent. -/
def recordGetD (r : JsRecord) (k : String) : JsValue :=
  (((r.find? (fun kv => kv.1 == k)).map (fun kv => kv.2)).getD .undefined)

/-- The `Array.isArray` test. -/
def isArray : JsValue → Bool
  | .arr _ => true
  | _ => false

/-- The `typeof v === "object"` test (`null` and arrays also have typeof
`object` in JavaScript). -/
def isObjectType : JsValue → Bool
  | .nullv => true
  | .arr _ => true
  | .obj _ => true
  | _ => false

mutual
/-- JavaScript `String(v)` conversion, used by the default array sort
comparator: arrays join their elements with commas, objects print as
`[object Object]`. -/
def jsToString : JsValue → String
  | .undefined => "undefined"
  | .nullv => "null"
  | .bool b => if b then "true" else "false"
  | .num n => toString n
  | .str s => s
  | .arr xs => String.intercalate "," (jsToStringList xs)
  | .obj _ => "[object Object]"

/-- `String` conversion of each element of a list of JS values. -/
def jsToStringList : List JsValue → List String
  | [] => []
  | x :: xs => jsToString x :: jsToStringList xs
end

mutual
/-- `JSON.stringify` restricted to the shapes the cache-key code serializes
(`undefined` inside an array serializes as `null`). -/
def jsonStringify : JsValue → String
  | .undefined => "null"
  | .nullv => "null"
  | .bool b => if b then "true" else "false"
  | .num n => toString n
  | .str s => "\"" ++ s ++ "\""
  | .arr xs => "[" ++ String.intercalate "," (jsonStringifyList xs) ++ "]"
  | .obj fs => "\x7b" ++ String.intercalate "," (jsonStringifyFields fs) ++ "\x7d"

/-- `JSON.stringify` of the elements of an array. -/
def jsonStringifyList : List JsValue → List String
  | [] => []
  | x :: xs => jsonStringify x :: jsonStringifyList xs

/-- `JSON.stringify` of the fields of an object. -/
def jsonStringifyFields : List (String × JsValue) → List String
  | [] => []
  | kv :: fs => ("\"" ++ kv.1 ++ "\":" ++ jsonStringify kv.2) :: jsonStringifyFields fs
end

/-- Insert a value into a list sorted by the default JS comparator
(string-form comparison), as `Array.prototype.sort()` does. -/
def insertSorted (x : JsValue) : List JsValue → List JsValue
  | [] => [x]
  | y :: ys => if jsToString x < jsToString y then x :: y :: ys else y :: insertSorted x ys

/-- The default `Array.prototype.sort()`: sorts by `String(v)` comparison. -/
def jsSort (l : List JsValue) : List JsValue := l.foldr insertSorted []

/-!  Sanitizer — src/utils/validators.js  -/

/-- Embedding of `convertUndefinedToNull` (validators.js lines 7-17): copies
every own field, replacing a value `=== undefined` with explicit `null`. -/
def convertUndefinedToNull (obj : JsRecord) : JsRecord :=
  obj.map (fun kv => (kv.1, if kv.2.isUndefined then JsValue.nullv else kv.2))

/-- Embedding of `findUndefinedFields` (validators.js lines 26-43): the keys
whose value is `undefined` (the console warning is a side effect, dropped). -/
def findUndefinedFields (obj : JsRecord) : List String :=
  (obj.filter (fun kv => kv.2.isUndefined)).map (fun kv => kv.1)

/-- Embedding of the required-field scan inside `sanitizeRecords`
(validators.js lines 62-64): required fields whose sanitized value is `null`
or the empty string. -/
def missingRequiredFields (requiredFields : List String) (sanitized : JsRecord) : List String :=
  requiredFields.filter (fun f =>
    (recordGetD sanitized f).isNullv || (recordGetD sanitized f).isEmptyStr)

/-- Embedding of `sanitizeRecords` (validators.js lines 52-76): every record
is converted with `convertUndefinedToNull`; the undefined-field scan and the
required-field check only feed console warnings and never drop a record. -/
def sanitizeRecords (records : List JsRecord) (requiredFields : List String) : List JsRecord :=
  records.map (fun record =>
    let _undefinedFields := findUndefinedFields record
    let sanitized := convertUndefinedToNull record
    let _missingFields :=
      if requiredFields.length > 0 then missingRequiredFields requiredFields sanitized else []
    sanitized)

example : convertUndefinedToNull [("a", .undefined), ("b", .num 3)] =
    [("a", .nullv), ("b", .num 3)] := rfl

example : sanitizeRecords [[("a", .undefined)]] ["a"] = [[("a", .nullv)]] := rfl

/-!  Store and transactions — src/config/database.js  -/

/-- A store-level error: MySQL message and native error code. -/
structure StoreError : Type where
  message : String
  code : String
deriving DecidableEq

/-- Outcome of executing a statement against a store state: either the new
state, or a store error (constraint violation, connectivity loss, ...). -/
inductive ExecResult (DB : Type) : Type
  | ok : DB → ExecResult DB
  | err : StoreError → ExecResult DB

/-- Result of running `transaction` (database.js lines 51-66): the store state
after the call, whether the acquired connection was released, and the error
that was rethrown when the body failed (`none` means committed). -/
structure TxOutcome (DB : Type) : Type where
  state : DB
  released : Bool
  thrown : Option StoreError
deriving DecidableEq

/-- Embedding of `transaction` (database.js lines 51-66): acquire a
connection, begin, run the body, commit; on failure roll back (the state
reverts to the pre-transaction state) and rethrow; the `finally` block
releases the connection on both paths. -/
def transaction {DB : Type} (db : DB) (body : DB → ExecResult DB) : TxOutcome DB :=
  match body db with
  | .ok db2 => ⟨db2, true, none⟩
  | .err e => ⟨db, true, some e⟩

/-!  Chunked transactional loader — src/services/batch.service.js  -/

/-- The object returned by `insertBatch`: `success`, `inserted`, the batch
number, and the error message / MySQL code on failure.  (On the empty-input
path the source returns a `message` field instead of `batch`; the claims do
not depend on that field, so `batch` is carried uniformly here.) -/
structure InsertBatchResult : Type where
  success : Bool
  inserted : Nat
  batch : Nat
  error : Option String
  code : Option String
deriving DecidableEq

/-- State after an `insertBatch` call: the store state, the returned result
object, and whether every connection acquired during the call was released. -/
structure InsertBatchOutcome (DB : Type) : Type where
  db : DB
  result : InsertBatchResult
  released : Bool
deriving DecidableEq

/-- `Object.keys` of the first sanitized record (batch.service.js line 25). -/
def batchColumns (sanitized : List JsRecord) : List String :=
  (sanitized.headD []).map (fun kv => kv.1)

/-- The flattened parameter array (batch.service.js lines 33-35):
`sanitizedRecords.flatMap(record => columns.map(col => record[col]))`. -/
def batchValues (sanitized : List JsRecord) (columns : List String) : List JsValue :=
  sanitized.flatMap (fun record => columns.map (fun col => recordGetD record col))

/-- Embedding of `insertBatch` (batch.service.js lines 11-68).  The store is
abstracted as `exec`, which receives the connection state, the table name, the
derived column list and the flattened values of the single multi-row INSERT,
and either yields the new state or fails.  The body runs inside `transaction`;
the catch branch turns the rethrown store error into a structured failure
result with zero inserted.  Empty input short-circuits to a no-op success. -/
def insertBatch {DB : Type}
    (exec : DB → String → List String → List JsValue → ExecResult DB)
    (db : DB) (tableName : String) (records : List JsRecord) (batchNumber : Nat) :
    InsertBatchOutcome DB :=
  if records.isEmpty then
    ⟨db, ⟨true, 0, batchNumber, none, none⟩, true⟩
  else
    let sanitizedRecords := sanitizeRecords records []
    let columns := batchColumns sanitizedRecords
    let values := batchValues sanitizedRecords columns
    let tx := transaction db (fun conn => exec conn tableName columns values)
    match tx.thrown with
    | none => ⟨tx.state, ⟨true, sanitizedRecords.length, batchNumber, none, none⟩, tx.released⟩
    | some e => ⟨tx.state, ⟨false, 0, batchNumber, some e.message, some e.code⟩, tx.released⟩

/-- One entry of `stats.errors` (batch.service.js lines 105-110). -/
structure BatchErrorEntry : Type where
  batch : Nat
  offset : Nat
  error : Option String
  code : Option String
deriving DecidableEq

/-- The `stats` object accumulated by `processBatches`
(batch.service.js lines 82-89). -/
structure BatchRunStats : Type where
  totalRecords : Nat
  totalBatches : Nat
  successfulBatches : Nat
  failedBatches : Nat
  insertedRecords : Nat
  errors : List BatchErrorEntry
deriving DecidableEq

/-- The slice `allRecords.slice(i*K, min(i*K+K, N))` processed as chunk `i`
(batch.service.js lines 94-96). -/
def chunkOf (allRecords : List JsRecord) (K i : Nat) : List JsRecord :=
  (allRecords.drop (i * K)).take K

/-- The `for` loop of `processBatches` (batch.service.js lines 93-117),
running `k` iterations starting at chunk index `m`, threading the store state
and the stats object, and recording each issued chunk load as
`(offset, chunk)` in invocation order. -/
def runChunks {DB : Type}
    (exec : DB → String → List String → List JsValue → ExecResult DB)
    (tableName : String) (allRecords : List JsRecord) (K : Nat) :
    Nat → Nat → DB → BatchRunStats → BatchRunStats × DB × List (Nat × List JsRecord)
  | 0, _, db, stats => (stats, db, [])
  | k + 1, m, db, stats =>
    let o := insertBatch exec db tableName (chunkOf allRecords K m) (m + 1)
    let stats2 :=
      if o.result.success then
        { stats with successfulBatches := stats.successfulBatches + 1,
                     insertedRecords := stats.insertedRecords + o.result.inserted }
      else
        { stats with failedBatches := stats.failedBatches + 1,
                     errors := stats.errors ++
                       [⟨m + 1, m * K, o.result.error, o.result.code⟩] }
    let rest := runChunks exec tableName allRecords K k (m + 1) o.db stats2
    (rest.1, rest.2.1, (m * K, chunkOf allRecords K m) :: rest.2.2)

/-- Embedding of `processBatches` (batch.service.js lines 78-126): computes
`totalBatches = Math.ceil(N / K)` (the Nat formula `(N + K - 1) / K` agrees
with `Math.ceil` for `K > 0`), then runs every chunk sequentially.  Returns
the final stats, the final store state, and the chunk-load trace.  The
`onBatchComplete` callback only observes results and is dropped here. -/
def processBatches {DB : Type}
    (exec : DB → String → List String → List JsValue → ExecResult DB)
    (db : DB) (tableName : String) (allRecords : List JsRecord) (batchSize : Nat) :
    BatchRunStats × DB × List (Nat × List JsRecord) :=
  let totalRecords := allRecords.length
  let totalBatches := (totalRecords + batchSize - 1) / batchSize
  runChunks exec tableName allRecords batchSize totalBatches 0 db
    { totalRecords := totalRecords, totalBatches := totalBatches, successfulBatches := 0,
      failedBatches := 0, insertedRecords := 0, errors := [] }

/-- The store state seen by chunk `i` of a `processBatches` run (the state
after chunks `0 .. i-1` have each gone through `insertBatch`). -/
def dbBefore {DB : Type}
    (exec : DB → String → List String → List JsValue → ExecResult DB)
    (db : DB) (tableName : String) (allRecords : List JsRecord) (K : Nat) :
    Nat → DB
  | 0 => db
  | i + 1 =>
    (insertBatch exec (dbBefore exec db tableName allRecords K i) tableName
      (chunkOf allRecords K i) (i + 1)).db

/-- The `insertBatch` result object chunk `i` produces during a
`processBatches` run. -/
def chunkResult {DB : Type}
    (exec : DB → String → List String → List JsValue → ExecResult DB)
    (db : DB) (tableName : String) (allRecords : List JsRecord) (K : Nat)
    (i : Nat) : InsertBatchResult :=
  (insertBatch exec (dbBefore exec db tableName allRecords K i) tableName
    (chunkOf allRecords K i) (i + 1)).result

/-!  Paginated source reader — src/utils/api-client.js  -/

/-- One page of the source API: the `count` field (total reported by the
source) and the `results` array. -/
structure PageData (α : Type) : Type where
  count : Nat
  results : List α
deriving DecidableEq

/-- Response of `get(client, endpoint, params)` for one offset: the wrapped
`\x7bsuccess: true, data\x7d` or `\x7bsuccess: false, error\x7d` object. -/
inductive GetResult (α : Type) : Type
  | ok : PageData α → GetResult α
  | fail : String → GetResult α
deriving DecidableEq

/-- The object returned by `getAllPaginated` (api-client.js lines 109-166). -/
structure AllPaginatedResult (α : Type) : Type where
  success : Bool
  data : List α
  error : Option String
  totalCount : Option Nat
  fetchedCount : Option Nat
deriving DecidableEq

/-- The `for page = 1; page < totalPages` loop of `getAllPaginated`
(api-client.js lines 135-147): each listed page is fetched at offset
`page * limit`; a failed page is skipped with a warning (contributing no
records) and the loop continues. -/
def fetchRest {α : Type} (fetch : Nat → GetResult α) (limit : Nat) :
    List Nat → List α
  | [] => []
  | p :: ps =>
    (match fetch (p * limit) with
     | .ok d => d.results
     | .fail _ => []) ++ fetchRest fetch limit ps

/-- Embedding of `getAllPaginated` (api-client.js lines 109-166).  The
transport is abstracted as `fetch : offset → GetResult`.  Returns the result
object and the list of offsets requested, in request order.  A failed first
page aborts with `success: false` and empty data; `totalPages` is computed
once from the first page's `count`. -/
def getAllPaginated {α : Type} (fetch : Nat → GetResult α) (limit : Nat) :
    AllPaginatedResult α × List Nat :=
  match fetch 0 with
  | .fail e => (⟨false, [], some e, none, none⟩, [0])
  | .ok first =>
    let totalPages := (first.count + limit - 1) / limit
    let pages := List.range' 1 (totalPages - 1)
    let data := first.results ++ fetchRest fetch limit pages
    (⟨true, data, none, some first.count, some data.length⟩,
     0 :: pages.map (fun p => p * limit))

/-- Observable events of a `processPaginatedInBatches` run: page requests and
`processFn` invocations, in chronological order (each callback is awaited
before the next fetch is issued). -/
inductive PEvent (α : Type) : Type
  | fetch : Nat → PEvent α
  | callback : List α → Nat → Nat → PEvent α
deriving DecidableEq

/-- The object returned by `processPaginatedInBatches`
(api-client.js lines 176-224). -/
structure ProcessPaginatedResult : Type where
  success : Bool
  error : Option String
  totalPages : Option Nat
  totalRecords : Option Nat
deriving DecidableEq

/-- The `for page = 1; page < totalPages` loop of
`processPaginatedInBatches` (api-client.js lines 197-207): each listed page is
fetched; on success `processFn(results, page, totalPages)` runs (awaited)
before the next iteration; on failure the page is skipped with a warning. -/
def processRest {α : Type} (fetch : Nat → GetResult α) (limit : Nat)
    (totalPages : Nat) : List Nat → List (PEvent α)
  | [] => []
  | p :: ps =>
    PEvent.fetch (p * limit) ::
      ((match fetch (p * limit) with
        | .ok d => [PEvent.callback d.results p totalPages]
        | .fail _ => []) ++ processRest fetch limit totalPages ps)

/-- Embedding of `processPaginatedInBatches` (api-client.js lines 176-224):
fetch page 0; on failure return `success: false` having processed nothing;
otherwise compute `totalPages` once from the first page's `count`, invoke the
callback on the first page, then walk the remaining pages sequentially.
Returns the result object and the chronological event trace. -/
def processPaginatedInBatches {α : Type} (fetch : Nat → GetResult α)
    (limit : Nat) : ProcessPaginatedResult × List (PEvent α) :=
  match fetch 0 with
  | .fail e => (⟨false, some e, none, none⟩, [PEvent.fetch 0])
  | .ok first =>
    let totalPages := (first.count + limit - 1) / limit
    (⟨true, none, some totalPages, some first.count⟩,
     PEvent.fetch 0 :: PEvent.callback first.results 0 totalPages ::
       processRest fetch limit totalPages (List.range' 1 (totalPages - 1)))

/-- The record counts handed to the callback, in invocation order. -/
def callbackCounts {α : Type} : List (PEvent α) → List Nat
  | [] => []
  | PEvent.callback rs _ _ :: es => rs.length :: callbackCounts es
  | PEvent.fetch _ :: es => callbackCounts es

/-!  Reconciliation engine — src/services/ai-mapper.service.js  -/

/-- The process-wide `mapperCache` Map, modelled as an association list where
the most recent `set` shadows earlier entries. -/
abbrev MapperCache := List (String × JsValue)

/-- `mapperCache.get` / `mapperCache.has`. -/
def cacheGet (cache : MapperCache) (k : String) : Option JsValue :=
  ((cache.find? (fun e => e.1 == k)).map (fun e => e.2))

/-- `mapperCache.set`. -/
def cacheSet (cache : MapperCache) (k : String) (v : JsValue) : MapperCache :=
  (k, v) :: cache

/-- `Object.values(item)[0]` (ai-mapper.service.js line 16): the first field
value of a row object, `undefined` when there is none. -/
def firstValue : JsValue → JsValue
  | .obj ((_, v) :: _) => v
  | _ => .undefined

/-- Embedding of `generateCacheKey` (ai-mapper.service.js lines 13-19):
`entityType + "_" + JSON.stringify(apiResult.map(i => i.id).sort()) + "_" +
JSON.stringify(dbResult.map(i => Object.values(i)[0]).sort())`. -/
def generateCacheKey (entityType : String) (apiResult dbResult : List JsValue) : String :=
  let apiHash := jsonStringify (.arr (jsSort (apiResult.map (fun item => getField item "id"))))
  let dbHash := jsonStringify (.arr (jsSort (dbResult.map firstValue)))
  entityType ++ "_" ++ apiHash ++ "_" ++ dbHash

/-- What the oracle round-trip produced: either a parsed JSON value, or a
failure (network error from the OpenAI client, or unparseable content — both
throw and are caught by the outer handler). -/
inductive OracleResponse : Type
  | parseFailure : String → OracleResponse
  | value : JsValue → OracleResponse

/-- The structured error object built by the catch branch of `mapData`
(ai-mapper.service.js lines 180-184); the `details` payload is abstracted
away. -/
def mkAiError (message : String) : JsValue :=
  .obj [("error", .str "AI_MAPPING_ERROR"), ("message", .str message)]

/-- The mapper check of ai-mapper.service.js line 161:
`result.mapper` must be truthy and of typeof `object` (arrays pass). -/
def mapperValid (v : JsValue) : Bool := truthy v && isObjectType v

/-- Result of one `mapData` call: the returned value, the cache afterwards,
and whether the oracle was actually invoked on this call. -/
structure MapDataOutcome : Type where
  result : JsValue
  cache : MapperCache
  oracleCalled : Bool

/-- Embedding of `mapData` (ai-mapper.service.js lines 32-186).  The oracle
round-trip for this call is abstracted as `oracle` (only consulted on a cache
miss).  On a cache hit the cached value is returned directly.  Otherwise: a
throwing round-trip yields the catch branch's AI_MAPPING_ERROR object; a
parsed `null` makes the property accesses throw, landing in the same catch
branch; an oracle-reported `error` field is returned verbatim; an invalid
`mapper` or `missing` raises, again landing in the catch branch; a valid
result is cached and returned.  Note the engine checks only that `mapper` is
a truthy object and `missing` an array — the values of `mapper` are not
inspected. -/
def mapData (oracle : OracleResponse) (cache : MapperCache) (entityType : String)
    (apiResult dbResult : List JsValue) : MapDataOutcome :=
  let cacheKey := generateCacheKey entityType apiResult dbResult
  match cacheGet cache cacheKey with
  | some cached => ⟨cached, cache, false⟩
  | none =>
    match oracle with
    | .parseFailure msg => ⟨mkAiError msg, cache, true⟩
    | .value result =>
      if result.isNullv then
        ⟨mkAiError "Cannot read properties of null", cache, true⟩
      else if truthy (getField result "error") then
        ⟨result, cache, true⟩
      else if !(mapperValid (getField result "mapper")) then
        ⟨mkAiError "Invalid mapper structure in AI response", cache, true⟩
      else if !(isArray (getField result "missing")) then
        ⟨mkAiError "Invalid missing structure in AI response", cache, true⟩
      else
        ⟨result, cacheSet cache cacheKey result, true⟩

/-!  Secondary-appointment linking step — src/migrations/koibox/citas.js  -/

/-- The re-query mapping `old_id → id_cita` (citas.js lines 612-616): object
property keys are the string form of `old_id`; a later row overwrites an
earlier one with the same key (modelled by prepending, since lookups take the
first hit). -/
def buildPrimaryIdMapping (rows : List JsValue) : List (String × JsValue) :=
  rows.foldl (fun m apt => (jsToString (getField apt "old_id"), getField apt "id_cita") :: m) []

/-- Property lookup `mapping[v]` with JS key coercion to string;
`undefined` when absent. -/
def lookupProp (m : List (String × JsValue)) (v : JsValue) : JsValue :=
  (((m.find? (fun e => e.1 == jsToString v)).map (fun e => e.2)).getD .undefined)

/-- The destructuring `(\x7b _isPrimary, _originalId, id_cita_reference,
...appointment \x7d)` of citas.js lines 619-621: drops exactly those three
keys. -/
def stripSecondaryMeta (r : JsRecord) : JsRecord :=
  r.filter (fun kv =>
    !(kv.1 == "_isPrimary" || kv.1 == "_originalId" || kv.1 == "id_cita_reference"))

/-- The `x || null` coalescing of citas.js line 622. -/
def orNull (v : JsValue) : JsValue := if truthy v then v else .nullv

/-- Embedding of `cleanSecondaryAppointments` (citas.js lines 619-624): every
secondary record is kept, its metadata stripped, and `id_cita_reference` set
to `primaryIdMapping[_originalId] || null`. -/
def cleanSecondaryAppointments (primaryIdMapping : List (String × JsValue))
    (secondaries : List JsRecord) : List JsRecord :=
  secondaries.map (fun r =>
    stripSecondaryMeta r ++
      [("id_cita_reference", orNull (lookupProp primaryIdMapping (getField (JsValue.obj r) "_originalId")))])

/-- The `warnings` object of the POST /citas handler (citas.js lines 397-402). -/
structure CitasWarnings : Type where
  missingPatients : Nat
  missingDoctors : Nat
  missingTreatments : Nat
  missingSpaces : Nat
deriving DecidableEq

/-- Embedding of the secondary-insert step (citas.js lines 595-644): builds
the cleaned secondary list and submits all of it to `processBatches`; no
field of the `warnings` object is touched anywhere in this region, so the
warnings pass through unchanged.  Returns the records submitted for load and
the warnings after the step. -/
def secondaryInsertStep (primaryIdMapping : List (String × JsValue))
    (secondaries : List JsRecord) (warnings : CitasWarnings) :
    List JsRecord × CitasWarnings :=
  (cleanSecondaryAppointments primaryIdMapping secondaries, warnings)

/-!  Helper lemmas  -/

/-- Full characterization of the `processBatches` loop: starting at chunk
index `m` in the store state that chunks `0 .. m-1` produced, running `k`
more iterations accumulates exactly the per-chunk outcomes described by
`chunkResult` — success/failure counts, inserted totals, ordered error
entries, the final store state, and the ordered chunk-load trace. -/
theorem runChunks_spec {DB : Type}
    (exec : DB → String → List String → List JsValue → ExecResult DB)
    (tableName : String) (allRecords : List JsRecord) (K : Nat) (db : DB) :
    ∀ (k m : Nat) (stats : BatchRunStats),
    runChunks exec tableName allRecords K k m (dbBefore exec db tableName allRecords K m) stats
      = ({ totalRecords := stats.totalRecords,
           totalBatches := stats.totalBatches,
           successfulBatches := stats.successfulBatches +
             ((List.range' m k).filter
               (fun i => (chunkResult exec db tableName allRecords K i).success)).length,
           failedBatches := stats.failedBatches +
             ((List.range' m k).filter
               (fun i => !(chunkResult exec db tableName allRecords K i).success)).length,
           insertedRecords := stats.insertedRecords +
             ((List.range' m k).map (fun i =>
               if (chunkResult exec db tableName allRecords K i).success
               then (chunkResult exec db tableName allRecords K i).inserted else 0)).sum,
           errors := stats.errors ++
             (List.range' m k).filterMap (fun i =>
               if (chunkResult exec db tableName allRecords K i).success then none
               else some ⟨i + 1, i * K, (chunkResult exec db tableName allRecords K i).error,
                          (chunkResult exec db tableName allRecords K i).code⟩) },
         dbBefore exec db tableName allRecords K (m + k),
         (List.range' m k).map (fun i => (i * K, chunkOf allRecords K i))) := by
  intro k
  induction k with
  | zero =>
    intro m stats
    simp [runChunks, List.range']
  | succ k ih =>
    intro m stats
    have hres : (insertBatch exec (dbBefore exec db tableName allRecords K m) tableName
        (chunkOf allRecords K m) (m + 1)).result
        = chunkResult exec db tableName allRecords K m := rfl
    have hdb : (insertBatch exec (dbBefore exec db tableName allRecords K m) tableName
        (chunkOf allRecords K m) (m + 1)).db
        = dbBefore exec db tableName allRecords K (m + 1) := rfl
    rw [List.range'_succ m k 1]
    simp only [runChunks, hres, hdb]
    by_cases hs : (chunkResult exec db tableName allRecords K m).success = true
    · rw [if_pos hs, ih (m + 1)]
      have hmk : m + 1 + k = m + (k + 1) := by omega
      rw [hmk]
      simp [hs, List.filter_cons, List.filterMap_cons, Prod.mk.injEq,
        BatchRunStats.mk.injEq, Nat.add_assoc]
      omega
    · rw [if_neg hs, ih (m + 1)]
      have hmk : m + 1 + k = m + (k + 1) := by omega
      rw [hmk]
      rw [Bool.not_eq_true] at hs
      simp [hs, List.filter_cons, List.filterMap_cons, Prod.mk.injEq,
        BatchRunStats.mk.injEq, Nat.add_assoc]
      omega

/-- A record none of whose fields is `undefined` passes through
`convertUndefinedToNull` unchanged. -/
theorem convertUndefinedToNull_of_clean (l : JsRecord)
    (h : l.all (fun kv => !kv.2.isUndefined) = true) : convertUndefinedToNull l = l := by
  induction l with
  | nil => rfl
  | cons kv t ih =>
    rw [List.all_cons, Bool.and_eq_true] at h
    obtain ⟨h1, h2⟩ := h
    rw [Bool.not_eq_true'] at h1
    simp only [convertUndefinedToNull, List.map_cons] at ih ⊢
    rw [h1]
    simp [ih h2]

/-!  C9 — sanitizer  -/

/-- Claim C9: for every record with at least one field holding `undefined`,
`convertUndefinedToNull` / `sanitizeRecords` return a record where that field
is explicitly `null`, every other (non-undefined) field is unchanged, and the
field-name list is preserved exactly; `sanitizeRecords` maps each record
through `convertUndefinedToNull` independently of the required-field list, so
the required-fields check only reports and never rejects or removes a
record. -/
theorem C9_sanitize_normalizes_undefined
    (pre post : JsRecord) (k : String) (req : List String) (records : List JsRecord)
    (hpre : pre.all (fun kv => !kv.2.isUndefined) = true)
    (hpost : post.all (fun kv => !kv.2.isUndefined) = true) :
    convertUndefinedToNull (pre ++ (k, JsValue.undefined) :: post)
      = pre ++ (k, JsValue.nullv) :: post
    ∧ (convertUndefinedToNull (pre ++ (k, JsValue.undefined) :: post)).map Prod.fst
      = (pre ++ (k, JsValue.undefined) :: post).map Prod.fst
    ∧ sanitizeRecords records req = records.map convertUndefinedToNull
    ∧ (sanitizeRecords records req).length = records.length := by
  have hmain : convertUndefinedToNull (pre ++ (k, JsValue.undefined) :: post)
      = pre ++ (k, JsValue.nullv) :: post := by
    have hpre2 := convertUndefinedToNull_of_clean pre hpre
    have hpost2 := convertUndefinedToNull_of_clean post hpost
    simp only [convertUndefinedToNull, List.map_append, List.map_cons] at hpre2 hpost2 ⊢
    rw [hpre2, hpost2]
    rfl
  refine ⟨hmain, ?_, rfl, by simp [sanitizeRecords]⟩
  rw [hmain]
  simp

/-- Witness for C9 at a concrete record. -/
theorem C9_sanitize_normalizes_undefined_witness :
    ([(("x" : String), JsValue.num 1)].all (fun kv => !kv.2.isUndefined) = true)
    ∧ ([(("y" : String), JsValue.str "a")].all (fun kv => !kv.2.isUndefined) = true)
    ∧ (convertUndefinedToNull ([("x", JsValue.num 1)] ++ ("f", JsValue.undefined) :: [("y", JsValue.str "a")])
        = [("x", JsValue.num 1)] ++ ("f", JsValue.nullv) :: [("y", JsValue.str "a")]
      ∧ (convertUndefinedToNull ([("x", JsValue.num 1)] ++ ("f", JsValue.undefined) :: [("y", JsValue.str "a")])).map Prod.fst
        = (([("x", JsValue.num 1)] ++ ("f", JsValue.undefined) :: [("y", JsValue.str "a")]) : JsRecord).map Prod.fst
      ∧ sanitizeRecords [[("f", JsValue.undefined)]] ["x"]
        = [[("f", JsValue.undefined)]].map convertUndefinedToNull
      ∧ (sanitizeRecords [[("f", JsValue.undefined)]] ["x"]).length
        = ([[("f", JsValue.undefined)]] : List JsRecord).length) :=
  ⟨rfl, rfl,
    C9_sanitize_normalizes_undefined [("x", JsValue.num 1)] [("y", JsValue.str "a")]
      "f" ["x"] [[("f", JsValue.undefined)]] rfl rfl⟩

/-!  C1 — secondary records with unresolved primary references  -/

/-- A secondary appointment record as built by the transform step of the
POST /citas handler, with its `_originalId` pointing at a primary that is
absent from the re-query result. -/
def c1secondary : JsRecord :=
  [("id_paciente", JsValue.num 5), ("_isPrimary", JsValue.bool false),
   ("_originalId", JsValue.num 77), ("id_cita_reference", JsValue.str "PENDING")]

/-- Claim C1 counterexample: with an empty re-query result (the primary
failed to insert), the secondary record is still submitted for load — the
submitted list has length 1, carrying `id_cita_reference` as explicit `null`
— and the warnings object is unchanged (nothing is counted).  This refutes
the claim that such a record is dropped and recorded as an
unresolved-reference warning. -/
theorem C1_counterexample :
    (secondaryInsertStep [] [c1secondary] ⟨0, 0, 0, 0⟩).1
      = [[("id_paciente", JsValue.num 5), ("id_cita_reference", JsValue.nullv)]]
    ∧ (secondaryInsertStep [] [c1secondary] ⟨0, 0, 0, 0⟩).1.length = 1
    ∧ (secondaryInsertStep [] [c1secondary] ⟨0, 0, 0, 0⟩).2 = ⟨0, 0, 0, 0⟩ :=
  ⟨rfl, rfl, rfl⟩

/-- Claim C1 (amended): in the POST /citas handler, a secondary record whose
primary is absent from the post-insert re-query result (the lookup
`primaryIdMapping[_originalId]` is falsy) is NOT dropped: it is submitted for
load with `id_cita_reference` set to explicit `null`, the submitted list
keeps every secondary record, and no warning counter is incremented by the
secondary-insert step. -/
theorem C1_secondary_submitted_with_null_reference
    (mapping : List (String × JsValue)) (s : JsRecord) (rest : List JsRecord)
    (w : CitasWarnings)
    (h : truthy (lookupProp mapping (getField (JsValue.obj s) "_originalId")) = false) :
    (secondaryInsertStep mapping (s :: rest) w).1
      = (stripSecondaryMeta s ++ [("id_cita_reference", JsValue.nullv)])
          :: cleanSecondaryAppointments mapping rest
    ∧ (secondaryInsertStep mapping (s :: rest) w).1.length = rest.length + 1
    ∧ (secondaryInsertStep mapping (s :: rest) w).2 = w := by
  refine ⟨?_, ?_, rfl⟩
  · simp [secondaryInsertStep, cleanSecondaryAppointments, orNull, h]
  · simp [secondaryInsertStep, cleanSecondaryAppointments]

/-- Witness for the amended C1 at a concrete secondary record. -/
theorem C1_secondary_submitted_with_null_reference_witness :
    (truthy (lookupProp [] (getField (JsValue.obj c1secondary) "_originalId")) = false)
    ∧ ((secondaryInsertStep [] [c1secondary] ⟨1, 2, 3, 4⟩).1
        = (stripSecondaryMeta c1secondary ++ [("id_cita_reference", JsValue.nullv)])
            :: cleanSecondaryAppointments [] []
      ∧ (secondaryInsertStep [] [c1secondary] ⟨1, 2, 3, 4⟩).1.length = ([] : List JsRecord).length + 1
      ∧ (secondaryInsertStep [] [c1secondary] ⟨1, 2, 3, 4⟩).2 = ⟨1, 2, 3, 4⟩) :=
  ⟨rfl, C1_secondary_submitted_with_null_reference [] c1secondary [] ⟨1, 2, 3, 4⟩ rfl⟩

/-!  C2 — reconciliation result validation  -/

/-- An oracle response whose `mapper` values are not coercible to the numeric
target id type (a garbage string), but whose top-level shape passes the
structural checks the code actually performs. -/
def c2badResponse : JsValue :=
  .obj [("mapper", .obj [("1", .str "garbage")]), ("missing", .arr [])]

/-- Claim C2 counterexample: `mapData` accepts an oracle response whose
`mapper` value is the non-numeric string `"garbage"` — the response is
returned as a success (no `error` tag) and even cached.  This refutes the
part of the claim that every value of `mapper` is validated to be coercible
to the target id type before the result is trusted. -/
theorem C2_counterexample :
    (mapData (.value c2badResponse) [] "tax" [] []).result = c2badResponse
    ∧ truthy (getField (mapData (.value c2badResponse) [] "tax" [] []).result "error") = false
    ∧ (mapData (.value c2badResponse) [] "tax" [] []).cache
        = [(generateCacheKey "tax" [] [], c2badResponse)] :=
  ⟨rfl, rfl, rfl⟩

/-- Claim C2 (amended): on a cache miss, `mapData` validates that `mapper` is
a truthy value of typeof `object` and that `missing` is an array; either
violation is surfaced to the caller as a tagged `AI_MAPPING_ERROR` result
(never thrown — the raised exception is caught by the function's own catch
branch), and a response passing both checks is returned and cached.  The
values of `mapper` are not validated. -/
theorem C2_structural_checks
    (c : MapperCache) (et : String) (api db : List JsValue) (r1 r2 r3 : JsValue)
    (hmiss0 : cacheGet c (generateCacheKey et api db) = none)
    (h1n : r1.isNullv = false) (h1e : truthy (getField r1 "error") = false)
    (h1m : mapperValid (getField r1 "mapper") = false)
    (h2n : r2.isNullv = false) (h2e : truthy (getField r2 "error") = false)
    (h2m : mapperValid (getField r2 "mapper") = true)
    (h2a : isArray (getField r2 "missing") = false)
    (h3n : r3.isNullv = false) (h3e : truthy (getField r3 "error") = false)
    (h3m : mapperValid (getField r3 "mapper") = true)
    (h3a : isArray (getField r3 "missing") = true) :
    mapData (.value r1) c et api db
      = ⟨mkAiError "Invalid mapper structure in AI response", c, true⟩
    ∧ mapData (.value r2) c et api db
      = ⟨mkAiError "Invalid missing structure in AI response", c, true⟩
    ∧ mapData (.value r3) c et api db
      = ⟨r3, cacheSet c (generateCacheKey et api db) r3, true⟩ := by
  refine ⟨?_, ?_, ?_⟩
  · simp [mapData, hmiss0, h1n, h1e, h1m]
  · simp [mapData, hmiss0, h2n, h2e, h2m, h2a]
  · simp [mapData, hmiss0, h3n, h3e, h3m, h3a]

/-- Witness for the amended C2 at three concrete oracle responses. -/
theorem C2_structural_checks_witness :
    (cacheGet [] (generateCacheKey "tax" [] []) = none)
    ∧ ((JsValue.obj []).isNullv = false)
    ∧ (truthy (getField (JsValue.obj []) "error") = false)
    ∧ (mapperValid (getField (JsValue.obj []) "mapper") = false)
    ∧ ((JsValue.obj [("mapper", JsValue.obj [])]).isNullv = false)
    ∧ (truthy (getField (JsValue.obj [("mapper", JsValue.obj [])]) "error") = false)
    ∧ (mapperValid (getField (JsValue.obj [("mapper", JsValue.obj [])]) "mapper") = true)
    ∧ (isArray (getField (JsValue.obj [("mapper", JsValue.obj [])]) "missing") = false)
    ∧ ((JsValue.obj [("mapper", JsValue.obj []), ("missing", JsValue.arr [])]).isNullv = false)
    ∧ (truthy (getField (JsValue.obj [("mapper", JsValue.obj []), ("missing", JsValue.arr [])]) "error") = false)
    ∧ (mapperValid (getField (JsValue.obj [("mapper", JsValue.obj []), ("missing", JsValue.arr [])]) "mapper") = true)
    ∧ (isArray (getField (JsValue.obj [("mapper", JsValue.obj []), ("missing", JsValue.arr [])]) "missing") = true)
    ∧ (mapData (.value (JsValue.obj [])) [] "tax" [] []
        = ⟨mkAiError "Invalid mapper structure in AI response", [], true⟩
      ∧ mapData (.value (JsValue.obj [("mapper", JsValue.obj [])])) [] "tax" [] []
        = ⟨mkAiError "Invalid missing structure in AI response", [], true⟩
      ∧ mapData (.value (JsValue.obj [("mapper", JsValue.obj []), ("missing", JsValue.arr [])])) [] "tax" [] []
        = ⟨JsValue.obj [("mapper", JsValue.obj []), ("missing", JsValue.arr [])],
           cacheSet [] (generateCacheKey "tax" [] [])
             (JsValue.obj [("mapper", JsValue.obj []), ("missing", JsValue.arr [])]), true⟩) :=
  ⟨rfl, rfl, rfl, rfl, rfl, rfl, rfl, rfl, rfl, rfl, rfl, rfl,
    C2_structural_checks [] "tax" [] [] (JsValue.obj [])
      (JsValue.obj [("mapper", JsValue.obj [])])
      (JsValue.obj [("mapper", JsValue.obj []), ("missing", JsValue.arr [])])
      rfl rfl rfl rfl rfl rfl rfl rfl rfl rfl rfl rfl⟩

/-!  C3 / C10 — reconciliation cache  -/

/-- The catch-branch error object always carries a truthy `error` tag. -/
theorem truthy_error_mkAiError (msg : String) :
    truthy (getField (mkAiError msg) "error") = true := rfl

/-- Repeating `mapData` with a cache-key-equal input after a non-error first
call hits the cache: the second call returns the first call's result and
cache unchanged, without consulting the oracle. -/
theorem mapData_second_call (o o2 : OracleResponse) (c : MapperCache) (et : String)
    (api db api2 db2 : List JsValue)
    (hkey : generateCacheKey et api2 db2 = generateCacheKey et api db)
    (herr : truthy (getField (mapData o c et api db).result "error") = false) :
    mapData o2 (mapData o c et api db).cache et api2 db2 =
      ⟨(mapData o c et api db).result, (mapData o c et api db).cache, false⟩ := by
  cases h1 : cacheGet c (generateCacheKey et api db) with
  | some v =>
    have hm : mapData o c et api db = ⟨v, c, false⟩ := by simp [mapData, h1]
    rw [hm]
    simp [mapData, hkey, h1]
  | none =>
    cases o with
    | parseFailure msg =>
      have hm : mapData (.parseFailure msg) c et api db = ⟨mkAiError msg, c, true⟩ := by
        simp [mapData, h1]
      rw [hm] at herr
      rw [truthy_error_mkAiError] at herr
      exact absurd herr (by simp)
    | value r =>
      by_cases hn : r.isNullv = true
      · have hm : mapData (.value r) c et api db
            = ⟨mkAiError "Cannot read properties of null", c, true⟩ := by
          simp [mapData, h1, hn]
        rw [hm] at herr
        rw [truthy_error_mkAiError] at herr
        exact absurd herr (by simp)
      · by_cases he : truthy (getField r "error") = true
        · have hm : mapData (.value r) c et api db = ⟨r, c, true⟩ := by
            simp [mapData, h1, hn, he]
          rw [hm] at herr
          exact absurd herr (by simp [he])
        · by_cases hmap : mapperValid (getField r "mapper") = true
          · by_cases hmiss : isArray (getField r "missing") = true
            · have hm : mapData (.value r) c et api db
                  = ⟨r, cacheSet c (generateCacheKey et api db) r, true⟩ := by
                simp [mapData, h1, hn, he, hmap, hmiss]
              rw [hm]
              simp [mapData, hkey, cacheGet, cacheSet]
            · have hm : mapData (.value r) c et api db
                  = ⟨mkAiError "Invalid missing structure in AI response", c, true⟩ := by
                simp [mapData, h1, hn, he, hmap, hmiss]
              rw [hm] at herr
              rw [truthy_error_mkAiError] at herr
              exact absurd herr (by simp)
          · have hm : mapData (.value r) c et api db
                = ⟨mkAiError "Invalid mapper structure in AI response", c, true⟩ := by
              simp [mapData, h1, hn, he, hmap]
            rw [hm] at herr
            rw [truthy_error_mkAiError] at herr
            exact absurd herr (by simp)

/-- Claim C3: calling `mapData` twice with byte-identical
(entityType, sourceItems, targetItems) after a first call that did not end in
an error returns the identical mapping object on the second call, leaves the
cache unchanged, and does not invoke the oracle a second time (the second
call's oracle round-trip `o2` is arbitrary and unused). -/
theorem C3_identical_inputs_hit_cache (o o2 : OracleResponse) (c : MapperCache)
    (et : String) (api db : List JsValue)
    (herr : truthy (getField (mapData o c et api db).result "error") = false) :
    mapData o2 (mapData o c et api db).cache et api db =
      ⟨(mapData o c et api db).result, (mapData o c et api db).cache, false⟩ :=
  mapData_second_call o o2 c et api db api db rfl herr

/-- Witness for C3: a successful concrete first call, then a second call whose
oracle round-trip would fail — the cached mapping is returned anyway. -/
theorem C3_identical_inputs_hit_cache_witness :
    (truthy (getField (mapData
        (.value (JsValue.obj [("mapper", JsValue.obj [("1", JsValue.num 4)]), ("missing", JsValue.arr [])]))
        [] "tax" [] []).result "error") = false)
    ∧ mapData (.parseFailure "oracle unavailable")
        (mapData (.value (JsValue.obj [("mapper", JsValue.obj [("1", JsValue.num 4)]), ("missing", JsValue.arr [])]))
          [] "tax" [] []).cache "tax" [] []
      = ⟨(mapData (.value (JsValue.obj [("mapper", JsValue.obj [("1", JsValue.num 4)]), ("missing", JsValue.arr [])]))
            [] "tax" [] []).result,
         (mapData (.value (JsValue.obj [("mapper", JsValue.obj [("1", JsValue.num 4)]), ("missing", JsValue.arr [])]))
            [] "tax" [] []).cache, false⟩ :=
  ⟨rfl, C3_identical_inputs_hit_cache
    (.value (JsValue.obj [("mapper", JsValue.obj [("1", JsValue.num 4)]), ("missing", JsValue.arr [])]))
    (.parseFailure "oracle unavailable") [] "tax" [] [] rfl⟩

/-- Claim C10: the cache key depends only on the entityType, the `id` field
values of the source items, and the first field values of the target items;
hence after a non-error first call, a second `mapData` call whose source
array agrees on `id` values and whose target array agrees on first-field
values — even if every other field differs — returns the first call's cached
mapping without invoking the oracle. -/
theorem C10_cache_key_depends_on_ids_only (o o2 : OracleResponse) (c : MapperCache)
    (et : String) (api1 db1 api2 db2 : List JsValue)
    (hid : api2.map (fun item => getField item "id") = api1.map (fun item => getField item "id"))
    (hfv : db2.map firstValue = db1.map firstValue)
    (herr : truthy (getField (mapData o c et api1 db1).result "error") = false) :
    generateCacheKey et api2 db2 = generateCacheKey et api1 db1
    ∧ mapData o2 (mapData o c et api1 db1).cache et api2 db2 =
        ⟨(mapData o c et api1 db1).result, (mapData o c et api1 db1).cache, false⟩ := by
  have hkey : generateCacheKey et api2 db2 = generateCacheKey et api1 db1 := by
    unfold generateCacheKey
    rw [hid, hfv]
  exact ⟨hkey, mapData_second_call o o2 c et api1 db1 api2 db2 hkey herr⟩

/-- Witness for C10: two source/target pairs that agree only on the id /
first-field values (every other field differs), hitting the cache. -/
theorem C10_cache_key_depends_on_ids_only_witness :
    (([JsValue.obj [("id", JsValue.num 1), ("name", JsValue.str "b")]].map (fun item => getField item "id"))
      = ([JsValue.obj [("id", JsValue.num 1), ("name", JsValue.str "a")]].map (fun item => getField item "id")))
    ∧ (([JsValue.obj [("id_tipo_iva", JsValue.num 5), ("valor", JsValue.str "q")]].map firstValue)
      = ([JsValue.obj [("id_tipo_iva", JsValue.num 5), ("valor", JsValue.str "p")]].map firstValue))
    ∧ (truthy (getField (mapData
        (.value (JsValue.obj [("mapper", JsValue.obj [("1", JsValue.num 5)]), ("missing", JsValue.arr [])]))
        [] "tax" [JsValue.obj [("id", JsValue.num 1), ("name", JsValue.str "a")]]
        [JsValue.obj [("id_tipo_iva", JsValue.num 5), ("valor", JsValue.str "p")]]).result "error") = false)
    ∧ (generateCacheKey "tax" [JsValue.obj [("id", JsValue.num 1), ("name", JsValue.str "b")]]
          [JsValue.obj [("id_tipo_iva", JsValue.num 5), ("valor", JsValue.str "q")]]
        = generateCacheKey "tax" [JsValue.obj [("id", JsValue.num 1), ("name", JsValue.str "a")]]
          [JsValue.obj [("id_tipo_iva", JsValue.num 5), ("valor", JsValue.str "p")]]
      ∧ mapData (.parseFailure "oracle unavailable")
          (mapData (.value (JsValue.obj [("mapper", JsValue.obj [("1", JsValue.num 5)]), ("missing", JsValue.arr [])]))
            [] "tax" [JsValue.obj [("id", JsValue.num 1), ("name", JsValue.str "a")]]
            [JsValue.obj [("id_tipo_iva", JsValue.num 5), ("valor", JsValue.str "p")]]).cache
          "tax" [JsValue.obj [("id", JsValue.num 1), ("name", JsValue.str "b")]]
          [JsValue.obj [("id_tipo_iva", JsValue.num 5), ("valor", JsValue.str "q")]]
        = ⟨(mapData (.value (JsValue.obj [("mapper", JsValue.obj [("1", JsValue.num 5)]), ("missing", JsValue.arr [])]))
              [] "tax" [JsValue.obj [("id", JsValue.num 1), ("name", JsValue.str "a")]]
              [JsValue.obj [("id_tipo_iva", JsValue.num 5), ("valor", JsValue.str "p")]]).result,
           (mapData (.value (JsValue.obj [("mapper", JsValue.obj [("1", JsValue.num 5)]), ("missing", JsValue.arr [])]))
              [] "tax" [JsValue.obj [("id", JsValue.num 1), ("name", JsValue.str "a")]]
              [JsValue.obj [("id_tipo_iva", JsValue.num 5), ("valor", JsValue.str "p")]]).cache, false⟩) :=
  ⟨rfl, rfl, rfl,
    C10_cache_key_depends_on_ids_only
      (.value (JsValue.obj [("mapper", JsValue.obj [("1", JsValue.num 5)]), ("missing", JsValue.arr [])]))
      (.parseFailure "oracle unavailable") [] "tax"
      [JsValue.obj [("id", JsValue.num 1), ("name", JsValue.str "a")]]
      [JsValue.obj [("id_tipo_iva", JsValue.num 5), ("valor", JsValue.str "p")]]
      [JsValue.obj [("id", JsValue.num 1), ("name", JsValue.str "b")]]
      [JsValue.obj [("id_tipo_iva", JsValue.num 5), ("valor", JsValue.str "q")]]
      rfl rfl rfl⟩

/-!  C4 — transactional atomicity of one chunk  -/

/-- Claim C4: `insertBatch` is transactionally atomic.  For a non-empty
record list the single multi-row insert runs through one `transaction` call
(begin → execute → commit, rollback on failure): when the store accepts the
statement the new state is committed and the full sanitized count reported;
when the store rejects it the state reverts to the pre-call state (none of
the chunk's records are inserted) and a structured failure with the store's
message and code is returned; the connection is released on every exit path;
an empty record list is a no-op success with zero inserted. -/
theorem C4_insertBatch_atomic (DB : Type)
    (execOk execBad : DB → String → List String → List JsValue → ExecResult DB)
    (db db2 : DB) (tableName : String) (r : JsRecord) (rs : List JsRecord)
    (n : Nat) (e : StoreError)
    (hok : execOk db tableName (batchColumns (sanitizeRecords (r :: rs) []))
      (batchValues (sanitizeRecords (r :: rs) []) (batchColumns (sanitizeRecords (r :: rs) [])))
      = .ok db2)
    (hbad : execBad db tableName (batchColumns (sanitizeRecords (r :: rs) []))
      (batchValues (sanitizeRecords (r :: rs) []) (batchColumns (sanitizeRecords (r :: rs) [])))
      = .err e) :
    transaction db (fun conn => execOk conn tableName
        (batchColumns (sanitizeRecords (r :: rs) []))
        (batchValues (sanitizeRecords (r :: rs) []) (batchColumns (sanitizeRecords (r :: rs) []))))
      = ⟨db2, true, none⟩
    ∧ transaction db (fun conn => execBad conn tableName
        (batchColumns (sanitizeRecords (r :: rs) []))
        (batchValues (sanitizeRecords (r :: rs) []) (batchColumns (sanitizeRecords (r :: rs) []))))
      = ⟨db, true, some e⟩
    ∧ insertBatch execOk db tableName (r :: rs) n
      = ⟨db2, ⟨true, (sanitizeRecords (r :: rs) []).length, n, none, none⟩, true⟩
    ∧ insertBatch execBad db tableName (r :: rs) n
      = ⟨db, ⟨false, 0, n, some e.message, some e.code⟩, true⟩
    ∧ insertBatch execOk db tableName [] n = ⟨db, ⟨true, 0, n, none, none⟩, true⟩ := by
  refine ⟨?_, ?_, ?_, ?_, rfl⟩
  · simp [transaction, hok]
  · simp [transaction, hbad]
  · simp [insertBatch, transaction, hok]
  · simp [insertBatch, transaction, hbad]

/-- Witness for C4 with a concrete one-record chunk, a store that accepts,
and a store that reports a duplicate-key violation. -/
theorem C4_insertBatch_atomic_witness :
    ((fun (s : Nat) (_ : String) (_ : List String) (_ : List JsValue) => ExecResult.ok (s + 1))
        0 "citas" (batchColumns (sanitizeRecords ([[("a", JsValue.num 1)]] : List JsRecord) []))
        (batchValues (sanitizeRecords ([[("a", JsValue.num 1)]] : List JsRecord) [])
          (batchColumns (sanitizeRecords ([[("a", JsValue.num 1)]] : List JsRecord) [])))
      = .ok 1)
    ∧ ((fun (_ : Nat) (_ : String) (_ : List String) (_ : List JsValue) =>
          (ExecResult.err ⟨"Duplicate entry", "ER_DUP_ENTRY"⟩ : ExecResult Nat))
        0 "citas" (batchColumns (sanitizeRecords ([[("a", JsValue.num 1)]] : List JsRecord) []))
        (batchValues (sanitizeRecords ([[("a", JsValue.num 1)]] : List JsRecord) [])
          (batchColumns (sanitizeRecords ([[("a", JsValue.num 1)]] : List JsRecord) [])))
      = .err ⟨"Duplicate entry", "ER_DUP_ENTRY"⟩)
    ∧ (transaction 0 (fun conn =>
        (fun (s : Nat) (_ : String) (_ : List String) (_ : List JsValue) => ExecResult.ok (s + 1))
          conn "citas" (batchColumns (sanitizeRecords ([[("a", JsValue.num 1)]] : List JsRecord) []))
          (batchValues (sanitizeRecords ([[("a", JsValue.num 1)]] : List JsRecord) [])
            (batchColumns (sanitizeRecords ([[("a", JsValue.num 1)]] : List JsRecord) []))))
        = ⟨1, true, none⟩
      ∧ transaction 0 (fun conn =>
          (fun (_ : Nat) (_ : String) (_ : List String) (_ : List JsValue) =>
            (ExecResult.err ⟨"Duplicate entry", "ER_DUP_ENTRY"⟩ : ExecResult Nat))
            conn "citas" (batchColumns (sanitizeRecords ([[("a", JsValue.num 1)]] : List JsRecord) []))
            (batchValues (sanitizeRecords ([[("a", JsValue.num 1)]] : List JsRecord) [])
              (batchColumns (sanitizeRecords ([[("a", JsValue.num 1)]] : List JsRecord) []))))
        = ⟨0, true, some ⟨"Duplicate entry", "ER_DUP_ENTRY"⟩⟩
      ∧ insertBatch
          (fun (s : Nat) (_ : String) (_ : List String) (_ : List JsValue) => ExecResult.ok (s + 1))
          0 "citas" [[("a", JsValue.num 1)]] 1
        = ⟨1, ⟨true, (sanitizeRecords ([[("a", JsValue.num 1)]] : List JsRecord) []).length, 1, none, none⟩, true⟩
      ∧ insertBatch
          (fun (_ : Nat) (_ : String) (_ : List String) (_ : List JsValue) =>
            (ExecResult.err ⟨"Duplicate entry", "ER_DUP_ENTRY"⟩ : ExecResult Nat))
          0 "citas" [[("a", JsValue.num 1)]] 1
        = ⟨0, ⟨false, 0, 1, some (StoreError.mk "Duplicate entry" "ER_DUP_ENTRY").message,
               some (StoreError.mk "Duplicate entry" "ER_DUP_ENTRY").code⟩, true⟩
      ∧ insertBatch
          (fun (s : Nat) (_ : String) (_ : List String) (_ : List JsValue) => ExecResult.ok (s + 1))
          0 "citas" [] 1
        = ⟨0, ⟨true, 0, 1, none, none⟩, true⟩) :=
  ⟨rfl, rfl,
    C4_insertBatch_atomic Nat
      (fun s _ _ _ => ExecResult.ok (s + 1))
      (fun _ _ _ _ => ExecResult.err ⟨"Duplicate entry", "ER_DUP_ENTRY"⟩)
      0 1 "citas" [("a", JsValue.num 1)] [] 1 ⟨"Duplicate entry", "ER_DUP_ENTRY"⟩
      rfl rfl⟩

/-!  C5 / C6 — processBatches chunk accounting and failure isolation  -/

/-- Claim C5: `processBatches` is chunk-count correct: for `N` records and
chunk size `K > 0` it issues exactly `ceil(N/K)` chunk loads (the trace has
that length and `totalBatches` reports it), the issued offsets are
`0, K, 2K, ...` in strictly ascending order, and
`successfulBatches + failedBatches = totalBatches` always holds. -/
theorem C5_processBatches_chunk_count (DB : Type)
    (exec : DB → String → List String → List JsValue → ExecResult DB)
    (db : DB) (tableName : String) (records : List JsRecord) (K : Nat)
    (hK : 0 < K) :
    (processBatches exec db tableName records K).1.totalBatches
      = (records.length + K - 1) / K
    ∧ (processBatches exec db tableName records K).2.2.length
      = (records.length + K - 1) / K
    ∧ (processBatches exec db tableName records K).2.2.map Prod.fst
      = (List.range ((records.length + K - 1) / K)).map (fun i => i * K)
    ∧ List.Pairwise (· < ·) ((processBatches exec db tableName records K).2.2.map Prod.fst)
    ∧ (processBatches exec db tableName records K).1.successfulBatches
        + (processBatches exec db tableName records K).1.failedBatches
      = (processBatches exec db tableName records K).1.totalBatches := by
  have hspec := runChunks_spec exec tableName records K db
    ((records.length + K - 1) / K) 0
    { totalRecords := records.length, totalBatches := (records.length + K - 1) / K,
      successfulBatches := 0, failedBatches := 0, insertedRecords := 0, errors := [] }
  have hpb : processBatches exec db tableName records K
      = runChunks exec tableName records K ((records.length + K - 1) / K) 0 db
        { totalRecords := records.length, totalBatches := (records.length + K - 1) / K,
          successfulBatches := 0, failedBatches := 0, insertedRecords := 0, errors := [] } := rfl
  rw [hpb]
  rw [show db = dbBefore exec db tableName records K 0 from rfl]
  rw [hspec]
  simp only [show dbBefore exec db tableName records K 0 = db from rfl]
  have hlen : (List.range' 0 ((records.length + K - 1) / K)).length
      = (records.length + K - 1) / K := by simp [List.length_range']
  refine ⟨by trivial, by simp [hlen], ?_, ?_, ?_⟩
  · rw [List.range_eq_range']
    simp [List.map_map, Function.comp]
  · have hp : (List.range' 0 ((records.length + K - 1) / K)).Pairwise (· < ·) := by
      rw [← List.range_eq_range']
      exact List.pairwise_lt_range _
    simp only [List.map_map]
    exact hp.map _ (fun _ _ hab => (Nat.mul_lt_mul_right hK).mpr hab)
  · have hfl := List.length_eq_length_filter_add
      (l := List.range' 0 ((records.length + K - 1) / K))
      (fun i => (chunkResult exec db tableName records K i).success)
    simp only [hlen] at hfl
    simp only [Nat.zero_add]
    omega

/-- Store double counting successfully executed statements; used by the C5
witness. -/
def c5exec : Nat → String → List String → List JsValue → ExecResult Nat :=
  fun s _ _ _ => .ok (s + 1)

/-- Five one-column records, loaded in chunks of 2 by the C5 witness
(3 chunks: offsets 0, 2, 4). -/
def c5records : List JsRecord :=
  [[("a", JsValue.num 1)], [("a", JsValue.num 2)], [("a", JsValue.num 3)],
   [("a", JsValue.num 4)], [("a", JsValue.num 5)]]

/-- Witness for C5 at a concrete 5-record, chunk-size-2 run. -/
theorem C5_processBatches_chunk_count_witness :
    0 < 2
    ∧ ((processBatches c5exec 0 "citas" c5records 2).1.totalBatches
        = (c5records.length + 2 - 1) / 2
      ∧ (processBatches c5exec 0 "citas" c5records 2).2.2.length
        = (c5records.length + 2 - 1) / 2
      ∧ (processBatches c5exec 0 "citas" c5records 2).2.2.map Prod.fst
        = (List.range ((c5records.length + 2 - 1) / 2)).map (fun i => i * 2)
      ∧ List.Pairwise (· < ·) ((processBatches c5exec 0 "citas" c5records 2).2.2.map Prod.fst)
      ∧ (processBatches c5exec 0 "citas" c5records 2).1.successfulBatches
          + (processBatches c5exec 0 "citas" c5records 2).1.failedBatches
        = (processBatches c5exec 0 "citas" c5records 2).1.totalBatches) :=
  ⟨by decide, C5_processBatches_chunk_count Nat c5exec 0 "citas" c5records 2 (by decide)⟩

/-- Claim C6: in a `processBatches` run, a chunk whose store-level insert
fails does not abort the run: the trace still contains every one of the
`ceil(N/K)` chunk loads, the failed chunk contributes a
`(batch, offset, error, code)` entry to `stats.errors` (which consists of
exactly the per-chunk failures in order), the failed chunk contributes zero
to `insertedRecords` (which sums only successful chunks), and — the model
being a total function returning the stats — the store error is returned in
the stats rather than thrown past the call. -/
theorem C6_failed_chunk_isolated (DB : Type)
    (exec : DB → String → List String → List JsValue → ExecResult DB)
    (db : DB) (tableName : String) (records : List JsRecord) (K j : Nat)
    (hK : 0 < K) (hj : j < (records.length + K - 1) / K)
    (hfail : (chunkResult exec db tableName records K j).success = false) :
    (processBatches exec db tableName records K).2.2.length
      = (records.length + K - 1) / K
    ∧ (processBatches exec db tableName records K).1.errors
      = (List.range ((records.length + K - 1) / K)).filterMap (fun i =>
          if (chunkResult exec db tableName records K i).success then none
          else some ⟨i + 1, i * K, (chunkResult exec db tableName records K i).error,
                     (chunkResult exec db tableName records K i).code⟩)
    ∧ (⟨j + 1, j * K, (chunkResult exec db tableName records K j).error,
        (chunkResult exec db tableName records K j).code⟩ : BatchErrorEntry)
      ∈ (processBatches exec db tableName records K).1.errors
    ∧ (processBatches exec db tableName records K).1.insertedRecords
      = ((List.range ((records.length + K - 1) / K)).map (fun i =>
          if (chunkResult exec db tableName records K i).success
          then (chunkResult exec db tableName records K i).inserted else 0)).sum
    ∧ (if (chunkResult exec db tableName records K j).success
       then (chunkResult exec db tableName records K j).inserted else 0) = 0 := by
  have hspec := runChunks_spec exec tableName records K db
    ((records.length + K - 1) / K) 0
    { totalRecords := records.length, totalBatches := (records.length + K - 1) / K,
      successfulBatches := 0, failedBatches := 0, insertedRecords := 0, errors := [] }
  have hpb : processBatches exec db tableName records K
      = runChunks exec tableName records K ((records.length + K - 1) / K) 0 db
        { totalRecords := records.length, totalBatches := (records.length + K - 1) / K,
          successfulBatches := 0, failedBatches := 0, insertedRecords := 0, errors := [] } := rfl
  rw [hpb]
  rw [show db = dbBefore exec db tableName records K 0 from rfl]
  rw [hspec]
  simp only [show dbBefore exec db tableName records K 0 = db from rfl]
  have herrs :
      (List.range' 0 ((records.length + K - 1) / K)).filterMap (fun i =>
          if (chunkResult exec db tableName records K i).success
          then none
          else some (⟨i + 1, i * K,
            (chunkResult exec db tableName records K i).error,
            (chunkResult exec db tableName records K i).code⟩ : BatchErrorEntry))
        = (List.range ((records.length + K - 1) / K)).filterMap (fun i =>
          if (chunkResult exec db tableName records K i).success
          then none
          else some ⟨i + 1, i * K,
            (chunkResult exec db tableName records K i).error,
            (chunkResult exec db tableName records K i).code⟩) := by
    rw [List.range_eq_range']
  refine ⟨by simp [List.length_range'], by simp [herrs], ?_, ?_, by simp [hfail]⟩
  · simp only [List.nil_append]
    rw [herrs]
    refine List.mem_filterMap.mpr ⟨j, List.mem_range.mpr hj, ?_⟩
    rw [hfail]
    rfl
  · simp only [Nat.zero_add]
    rw [List.range_eq_range']

/-- Store that rejects any single-row INSERT (so the last, shorter chunk of
the C6 witness fails) and otherwise counts statements. -/
def c6exec : Nat → String → List String → List JsValue → ExecResult Nat :=
  fun s _ _ vals =>
    if vals.length == 1 then .err ⟨"Duplicate entry", "ER_DUP_ENTRY"⟩ else .ok (s + 1)

/-- Three one-column records loaded in chunks of 2 by the C6 witness: chunk 0
([r1, r2]) succeeds, chunk 1 ([r3]) fails. -/
def c6records : List JsRecord :=
  [[("a", JsValue.num 1)], [("a", JsValue.num 2)], [("a", JsValue.num 3)]]

/-- Witness for C6 at a concrete run whose second (last) chunk fails. -/
theorem C6_failed_chunk_isolated_witness :
    0 < 2
    ∧ 1 < (c6records.length + 2 - 1) / 2
    ∧ (chunkResult c6exec 0 "citas" c6records 2 1).success = false
    ∧ ((processBatches c6exec 0 "citas" c6records 2).2.2.length
        = (c6records.length + 2 - 1) / 2
      ∧ (processBatches c6exec 0 "citas" c6records 2).1.errors
        = (List.range ((c6records.length + 2 - 1) / 2)).filterMap (fun i =>
            if (chunkResult c6exec 0 "citas" c6records 2 i).success then none
            else some ⟨i + 1, i * 2, (chunkResult c6exec 0 "citas" c6records 2 i).error,
                       (chunkResult c6exec 0 "citas" c6records 2 i).code⟩)
      ∧ (⟨1 + 1, 1 * 2, (chunkResult c6exec 0 "citas" c6records 2 1).error,
          (chunkResult c6exec 0 "citas" c6records 2 1).code⟩ : BatchErrorEntry)
        ∈ (processBatches c6exec 0 "citas" c6records 2).1.errors
      ∧ (processBatches c6exec 0 "citas" c6records 2).1.insertedRecords
        = ((List.range ((c6records.length + 2 - 1) / 2)).map (fun i =>
            if (chunkResult c6exec 0 "citas" c6records 2 i).success
            then (chunkResult c6exec 0 "citas" c6records 2 i).inserted else 0)).sum
      ∧ (if (chunkResult c6exec 0 "citas" c6records 2 1).success
         then (chunkResult c6exec 0 "citas" c6records 2 1).inserted else 0) = 0) :=
  ⟨by decide, by decide, rfl,
    C6_failed_chunk_isolated Nat c6exec 0 "citas" c6records 2 1 (by decide) (by decide) rfl⟩

/-!  C7 / C8 — paginated traversal failure semantics and streaming  -/

/-- The `getAllPaginated` page loop distributes over concatenation of page
lists. -/
theorem fetchRest_append {α : Type} (fetch : Nat → GetResult α) (limit : Nat)
    (a b : List Nat) :
    fetchRest fetch limit (a ++ b) = fetchRest fetch limit a ++ fetchRest fetch limit b := by
  induction a with
  | nil => rfl
  | cons x xs ih => simp [fetchRest, ih, List.append_assoc]

/-- The `processPaginatedInBatches` page loop distributes over concatenation
of page lists. -/
theorem processRest_append {α : Type} (fetch : Nat → GetResult α) (limit tp : Nat)
    (a b : List Nat) :
    processRest fetch limit tp (a ++ b)
      = processRest fetch limit tp a ++ processRest fetch limit tp b := by
  induction a with
  | nil => rfl
  | cons x xs ih => simp [processRest, ih, List.append_assoc]

/-- Splitting the subsequent-page list `1, ..., n-1` around an interior page
`p`. -/
theorem range'_split_at (p n : Nat) (h1 : 1 ≤ p) (h2 : p < n) :
    List.range' 1 (n - 1) = List.range' 1 (p - 1) ++ p :: List.range' (p + 1) (n - 1 - p) := by
  have e1 : n - 1 = (n - p) + (p - 1) := by omega
  have e2 : 1 + 1 * (p - 1) = p := by omega
  have e3 : n - p = (n - 1 - p) + 1 := by omega
  rw [e1, ← List.range'_append 1 (p - 1) (n - p) 1, e2, e3, List.range'_succ]
  have e4 : n - 1 - p + 1 + (p - 1) - p = n - 1 - p := by omega
  rw [e4]

/-- Claim C7: in both paginated traversals, failure of the first page is
fatal — `getAllPaginated` returns `success: false` with empty data after the
single request, and `processPaginatedInBatches` returns `success: false`
having invoked no callback — while failure of any subsequent page `p`
(`1 ≤ p < totalPages`, in a run of any length, with the other pages
arbitrary) only skips that page: both runs report success, the data and the
event trace split around page `p` with page `p` contributing no records and
no callback (only its fetch attempt), and every page — including all pages
after `p` — is still requested and processed. -/
theorem C7_first_page_fatal_later_pages_skipped (α : Type)
    (fetchA fetchB : Nat → GetResult α) (limit : Nat) (e1 e2 : String)
    (first : PageData α) (p : Nat)
    (hA : fetchA 0 = .fail e1)
    (hB0 : fetchB 0 = .ok first)
    (hp1 : 1 ≤ p)
    (hp : p < (first.count + limit - 1) / limit)
    (hBp : fetchB (p * limit) = .fail e2) :
    getAllPaginated fetchA limit = (⟨false, [], some e1, none, none⟩, [0])
    ∧ processPaginatedInBatches fetchA limit = (⟨false, some e1, none, none⟩, [PEvent.fetch 0])
    ∧ (getAllPaginated fetchB limit).1.success = true
    ∧ (getAllPaginated fetchB limit).1.data
      = first.results
          ++ fetchRest fetchB limit (List.range' 1 (p - 1))
          ++ fetchRest fetchB limit
               (List.range' (p + 1) ((first.count + limit - 1) / limit - 1 - p))
    ∧ (getAllPaginated fetchB limit).2
      = 0 :: (List.range' 1 ((first.count + limit - 1) / limit - 1)).map (fun q => q * limit)
    ∧ (p * limit) ∈ (getAllPaginated fetchB limit).2
    ∧ (processPaginatedInBatches fetchB limit).1
      = ⟨true, none, some ((first.count + limit - 1) / limit), some first.count⟩
    ∧ (processPaginatedInBatches fetchB limit).2
      = PEvent.fetch 0
          :: PEvent.callback first.results 0 ((first.count + limit - 1) / limit)
          :: (processRest fetchB limit ((first.count + limit - 1) / limit)
                (List.range' 1 (p - 1))
              ++ (PEvent.fetch (p * limit)
                  :: processRest fetchB limit ((first.count + limit - 1) / limit)
                       (List.range' (p + 1) ((first.count + limit - 1) / limit - 1 - p)))) := by
  have hsplit := range'_split_at p ((first.count + limit - 1) / limit) hp1 hp
  have hpmem : p ∈ List.range' 1 ((first.count + limit - 1) / limit - 1) := by
    rw [List.mem_range'_1]
    omega
  refine ⟨?_, ?_, ?_, ?_, ?_, ?_, ?_, ?_⟩
  · simp [getAllPaginated, hA]
  · simp [processPaginatedInBatches, hA]
  · simp [getAllPaginated, hB0]
  · simp only [getAllPaginated, hB0]
    rw [hsplit]
    rw [show List.range' 1 (p - 1) ++ p :: List.range' (p + 1)
          ((first.count + limit - 1) / limit - 1 - p)
        = List.range' 1 (p - 1) ++ (p :: List.range' (p + 1)
          ((first.count + limit - 1) / limit - 1 - p)) from rfl]
    rw [fetchRest_append]
    simp [fetchRest, hBp, List.append_assoc]
  · simp [getAllPaginated, hB0]
  · simp only [getAllPaginated, hB0]
    exact List.mem_cons_of_mem 0 (List.mem_map_of_mem _ hpmem)
  · simp [processPaginatedInBatches, hB0]
  · simp only [processPaginatedInBatches, hB0]
    rw [hsplit]
    rw [show List.range' 1 (p - 1) ++ p :: List.range' (p + 1)
          ((first.count + limit - 1) / limit - 1 - p)
        = List.range' 1 (p - 1) ++ (p :: List.range' (p + 1)
          ((first.count + limit - 1) / limit - 1 - p)) from rfl]
    rw [processRest_append]
    simp [processRest, hBp, List.append_assoc]

/-- Transport used by the C7 witness: a four-page run (reported total 350,
page size 100) whose page 2 (offset 200) fails while pages 0, 1 and 3
succeed. -/
def c7fetchB : Nat → GetResult Nat :=
  fun off =>
    if off == 0 then .ok ⟨350, [1, 2]⟩
    else if off == 100 then .ok ⟨350, [3]⟩
    else if off == 200 then .fail "Request failed with status code 500"
    else if off == 300 then .ok ⟨350, [4]⟩
    else .fail "unexpected offset"

/-- Witness for C7: a transport whose first page fails, and a four-page
transport whose interior page 2 fails while pages before and after it are
still fetched and processed. -/
theorem C7_first_page_fatal_later_pages_skipped_witness :
    ((fun (_ : Nat) => GetResult.fail (α := Nat) "ECONNREFUSED") 0 = .fail "ECONNREFUSED")
    ∧ (c7fetchB 0 = .ok ⟨350, [1, 2]⟩)
    ∧ ((1 : Nat) ≤ 2)
    ∧ ((2 : Nat) < ((PageData.mk 350 [1, 2] : PageData Nat).count + 100 - 1) / 100)
    ∧ (c7fetchB (2 * 100) = .fail "Request failed with status code 500")
    ∧ (getAllPaginated (fun (_ : Nat) => GetResult.fail (α := Nat) "ECONNREFUSED") 100
        = (⟨false, [], some "ECONNREFUSED", none, none⟩, [0])
      ∧ processPaginatedInBatches (fun (_ : Nat) => GetResult.fail (α := Nat) "ECONNREFUSED") 100
        = (⟨false, some "ECONNREFUSED", none, none⟩, [PEvent.fetch 0])
      ∧ (getAllPaginated c7fetchB 100).1.success = true
      ∧ (getAllPaginated c7fetchB 100).1.data
        = (PageData.mk 350 [1, 2]).results
            ++ fetchRest c7fetchB 100 (List.range' 1 (2 - 1))
            ++ fetchRest c7fetchB 100
                 (List.range' (2 + 1) (((PageData.mk 350 [1, 2] : PageData Nat).count + 100 - 1) / 100 - 1 - 2))
      ∧ (getAllPaginated c7fetchB 100).2
        = 0 :: (List.range' 1 (((PageData.mk 350 [1, 2] : PageData Nat).count + 100 - 1) / 100 - 1)).map
            (fun q => q * 100)
      ∧ (2 * 100) ∈ (getAllPaginated c7fetchB 100).2
      ∧ (processPaginatedInBatches c7fetchB 100).1
        = ⟨true, none, some (((PageData.mk 350 [1, 2] : PageData Nat).count + 100 - 1) / 100),
            some (PageData.mk 350 [1, 2] : PageData Nat).count⟩
      ∧ (processPaginatedInBatches c7fetchB 100).2
        = PEvent.fetch 0
            :: PEvent.callback (PageData.mk 350 [1, 2]).results 0
                 (((PageData.mk 350 [1, 2] : PageData Nat).count + 100 - 1) / 100)
            :: (processRest c7fetchB 100 (((PageData.mk 350 [1, 2] : PageData Nat).count + 100 - 1) / 100)
                  (List.range' 1 (2 - 1))
                ++ (PEvent.fetch (2 * 100)
                    :: processRest c7fetchB 100
                         (((PageData.mk 350 [1, 2] : PageData Nat).count + 100 - 1) / 100)
                         (List.range' (2 + 1)
                           (((PageData.mk 350 [1, 2] : PageData Nat).count + 100 - 1) / 100 - 1 - 2))))) :=
  ⟨rfl, rfl, by decide, by decide, rfl,
    C7_first_page_fatal_later_pages_skipped Nat
      (fun _ => GetResult.fail "ECONNREFUSED") c7fetchB 100
      "ECONNREFUSED" "Request failed with status code 500"
      ⟨350, [1, 2]⟩ 2 rfl rfl (by decide) (by decide) rfl⟩


/-- Claim C8: `processPaginatedInBatches` computes the total page count once
from the first page's reported total (250 with page size 100 gives 3 pages;
later pages' reported counts `c1`, `c2` are ignored) and for three
successful pages of sizes 100, 100, 50 invokes the callback exactly 3 times
with record counts [100, 100, 50], each callback appearing in the event
trace before the next page's fetch. -/
theorem C8_streamPages_three_pages (α : Type) (fetch : Nat → GetResult α)
    (c1 c2 : Nat) (r0 r1 r2 : List α)
    (h0 : fetch 0 = .ok ⟨250, r0⟩) (hl0 : r0.length = 100)
    (h1 : fetch 100 = .ok ⟨c1, r1⟩) (hl1 : r1.length = 100)
    (h2 : fetch 200 = .ok ⟨c2, r2⟩) (hl2 : r2.length = 50) :
    (processPaginatedInBatches fetch 100).1 = ⟨true, none, some 3, some 250⟩
    ∧ (processPaginatedInBatches fetch 100).2 =
        [PEvent.fetch 0, PEvent.callback r0 0 3, PEvent.fetch 100,
         PEvent.callback r1 1 3, PEvent.fetch 200, PEvent.callback r2 2 3]
    ∧ callbackCounts (processPaginatedInBatches fetch 100).2 = [100, 100, 50] := by
  have hf1 : fetch (1 * 100) = .ok ⟨c1, r1⟩ := by rw [Nat.one_mul]; exact h1
  have hf2 : fetch (2 * 100) = .ok ⟨c2, r2⟩ := by
    rw [show (2 : Nat) * 100 = 200 from rfl]; exact h2
  have htrace : (processPaginatedInBatches fetch 100).2 =
      [PEvent.fetch 0, PEvent.callback r0 0 3, PEvent.fetch 100,
       PEvent.callback r1 1 3, PEvent.fetch 200, PEvent.callback r2 2 3] := by
    simp [processPaginatedInBatches, h0, processRest, hf1, hf2, List.range']
  refine ⟨?_, htrace, ?_⟩
  · simp [processPaginatedInBatches, h0]
  · rw [htrace]
    simp [callbackCounts, hl0, hl1, hl2]

/-- Transport used by the C8 witness: a 250-item source in pages of
100, 100 and 50, whose later pages report drifted totals that must be
ignored. -/
def c8fetch : Nat → GetResult Nat :=
  fun off =>
    if off == 0 then .ok ⟨250, List.replicate 100 0⟩
    else if off == 100 then .ok ⟨999, List.replicate 100 0⟩
    else if off == 200 then .ok ⟨7, List.replicate 50 0⟩
    else .fail "unexpected offset"

/-- Witness for C8 against the concrete 250-item mock source. -/
theorem C8_streamPages_three_pages_witness :
    (c8fetch 0 = .ok ⟨250, List.replicate 100 0⟩)
    ∧ ((List.replicate 100 (0 : Nat)).length = 100)
    ∧ (c8fetch 100 = .ok ⟨999, List.replicate 100 0⟩)
    ∧ (c8fetch 200 = .ok ⟨7, List.replicate 50 0⟩)
    ∧ ((List.replicate 50 (0 : Nat)).length = 50)
    ∧ ((processPaginatedInBatches c8fetch 100).1 = ⟨true, none, some 3, some 250⟩
      ∧ (processPaginatedInBatches c8fetch 100).2 =
          [PEvent.fetch 0, PEvent.callback (List.replicate 100 0) 0 3, PEvent.fetch 100,
           PEvent.callback (List.replicate 100 0) 1 3, PEvent.fetch 200,
           PEvent.callback (List.replicate 50 0) 2 3]
      ∧ callbackCounts (processPaginatedInBatches c8fetch 100).2 = [100, 100, 50]) :=
  ⟨rfl, by simp, rfl, rfl, by simp,
    C8_streamPages_three_pages Nat c8fetch 999 7
      (List.replicate 100 0) (List.replicate 100 0) (List.replicate 50 0)
      rfl (by simp) rfl (by simp) rfl (by simp)⟩
